import Mathlib

/-!
# Verification of `kafka/testhelpers.go`

A shallow embedding of the test helpers of the Kafka client binding:
the configuration loader `testconf_read`, the rate displayer `ratedisp`
(`ratedisp_start`, `reset`, `print`, `tick`) and the topic message counter
`get_message_count_in_topic`.

Conventions of the embedding.

* Go `int64` (and `int`, which is 64 bits wide on the 64-bit targets the
  binding is built for) is an `Int` kept in range by `wrap64`, the
  two's-complement wrap-around of Go's `+` and `-`.
* A `time.Time` is the reading of the process clock in nanoseconds and a
  `time.Duration` a number of nanoseconds, both an `Int`; `Time.Sub` saturates as
  Go's does.
* The wall clock and standard output are explicit state (`World`): the clock is
  the stream of the successive readings `time.Now` returns.
* The collaborators that live outside the file (`NewConsumer`, `GetMetadata`,
  `QueryWatermarkOffsets`, the JSON decoder, the file system) are parameters; every
  call made to them is recorded in a trace.
-/

namespace Kafka

/-! ## Machine integers -/

/-- Smallest `int64`. -/
def minInt64 : Int := -9223372036854775808

/-- Largest `int64`. -/
def maxInt64 : Int := 9223372036854775807

/-- Two's-complement wrap-around of a mathematical integer into `int64`:
what Go's `+` and `-` on `int64` leave of the exact result. -/
def wrap64 (x : Int) : Int :=
  (x + 9223372036854775808) % 18446744073709551616 - 9223372036854775808

/-! ## Time -/

/-- The constant `time.Second`: a `time.Duration` is a number of nanoseconds. -/
def Second : Int := 1000000000

/-- The method `Time.Sub`: the difference `t - u`, saturated at the largest
and the smallest `Duration`. -/
def Time.Sub (t u : Int) : Int :=
  if maxInt64 < t - u then maxInt64
  else if t - u < minInt64 then minInt64
  else t - u

/-- The arguments `print` hands to `fmt.Printf` for one status line
`"%s: %s%d messages in %fs (%.0f msgs/s), %d bytes (%.3fMb/s)\n"`.
`elapsed` is `time.Since(rd.start)`; the two rates on the line are the
floating-point quotients `float64(cnt)/elapsed.Seconds()` and
`(float64(size)/elapsed.Seconds())/(1024*1024)`, both with `elapsed` as
divisor. -/
structure StatusLine where
  name : String
  pfx : String
  cnt : Int
  elapsed : Int
  size : Int
deriving DecidableEq, Repr

/-- The world the rate displayer runs in: `clock n` is what the `n`-th call of
`time.Now` returns, `reads` counts the calls made so far, `stdout` holds the
lines printed so far. -/
structure World where
  clock : Nat → Int
  reads : Nat
  stdout : List StatusLine

/-- The function `time.Now`: next reading of the clock. -/
def time_Now (w : World) : Int × World :=
  (w.clock w.reads, { w with reads := w.reads + 1 })

/-- The function `time.Since(t)`, which is `time.Now().Sub(t)`. -/
def time_Since (t : Int) (w : World) : Int × World :=
  let r := time_Now w
  (Time.Sub r.1 t, r.2)

/-! ## The rate displayer -/

/-- The struct `ratedisp`: tracks and prints message and byte rates. -/
structure ratedisp where
  name : String
  start : Int
  last_print : Int
  cnt : Int
  size : Int
deriving DecidableEq, Repr

/-- `ratedisp_start` sets up a new rate displayer. -/
def ratedisp_start (name : String) (w : World) : ratedisp × World :=
  let r := time_Now w
  ({ name := name, start := r.1, last_print := r.1, cnt := 0, size := 0 }, r.2)

/-- `reset` start time and counters. -/
def ratedisp.reset (rd : ratedisp) (w : World) : ratedisp × World :=
  let r := time_Now w
  ({ rd with start := r.1, cnt := 0, size := 0 }, r.2)

/-- `print` the current (accumulated) rate. -/
def ratedisp.print (rd : ratedisp) (pfx : String) (w : World) : World :=
  let e := time_Since rd.start w
  { e.2 with stdout := e.2.stdout ++
      [{ name := rd.name, pfx := pfx, cnt := rd.cnt, elapsed := e.1, size := rd.size }] }

/-- `tick` adds `cnt` of total size `size` to the rate displayer and also
prints running stats every 1s.  The test `time.Since(rd.last_print).Seconds() >= 1.0`
is on the float `float64(d / Second) + float64(d % Second) / 1e9`, which is at
least `1.0` exactly when the duration `d` is at least `Second` nanoseconds. -/
def ratedisp.tick (rd : ratedisp) (cnt size : Int) (w : World) : ratedisp × World :=
  let rd1 : ratedisp := { rd with cnt := wrap64 (rd.cnt + cnt), size := wrap64 (rd.size + size) }
  let d := time_Since rd1.last_print w
  if Second ≤ d.1 then
    let w2 := rd1.print "" d.2
    let n := time_Now w2
    ({ rd1 with last_print := n.1 }, n.2)
  else
    (rd1, d.2)

/-- A sequence of calls `tick(c_1, s_1)`, ..., `tick(c_n, s_n)` on one
displayer, with nothing in between. -/
def run_ticks : List (Int × Int) → ratedisp → World → ratedisp × World
  | [], rd, w => (rd, w)
  | (c, s) :: rest, rd, w =>
    let r := rd.tick c s w
    run_ticks rest r.1 r.2

/-! ## The configuration loader -/

/-- The package variable `testconf`. -/
structure TestConf where
  Brokers : String
  Topic : String
deriving DecidableEq, Repr

/-- The zero value of `testconf`: what the variable holds when the process
starts, before any call of `testconf_read`. -/
def testconf_zero : TestConf := { Brokers := "", Topic := "" }

/-- What `jp.Decode(&testconf)` does with the content of the file: the string
it stores into each field the document sets (`none` for a field the document
does not set, which the decoder leaves as it was) and the error it returns,
if any. -/
structure Decoded where
  Brokers : Option String
  Topic : Option String
  err : Option String
deriving DecidableEq, Repr

/-- The state of the file `testconf.json`: `os.Open` fails with an error, or
the file opens and decodes as `content`. -/
inductive ConfFile where
  | unopenable (err : String)
  | openable (content : Decoded)
deriving DecidableEq, Repr

/-- How a call ends: it returns a value, or it panics with a message. -/
inductive Outcome (α : Type) where
  | returned (v : α)
  | panicked (msg : String)
deriving DecidableEq, Repr

/-- What a call of `testconf_read` leaves behind: how it ended, the value of
`testconf`, the lines written to standard error, and whether `cf.Close()` ran. -/
structure ConfRun where
  outcome : Outcome Bool
  testconf : TestConf
  stderr : List String
  closed : Bool
deriving DecidableEq, Repr

/-- `testconf_read` reads the test suite config file `testconf.json` which must
contain at least `Brokers` and `Topic` string properties.  Returns true if the
testconf was found and usable, false if no such file, or panics if the file
format is wrong.  The second argument is the value of `testconf` before the call. -/
def testconf_read (file : ConfFile) (testconf : TestConf) : ConfRun :=
  match file with
  | .unopenable _ =>
    { outcome := .returned false, testconf := testconf,
      stderr := ["% testconf.json not found - ignoring test\n"], closed := false }
  | .openable d =>
    let tc : TestConf :=
      { Brokers := d.Brokers.getD testconf.Brokers, Topic := d.Topic.getD testconf.Topic }
    match d.err with
    | some err =>
      { outcome := .panicked ("Failed to parse testconf: " ++ err), testconf := tc,
        stderr := [], closed := false }
    | none =>
      if tc.Brokers = "" ∨ tc.Topic = "" then
        { outcome := .panicked "Missing Brokers and Topic in testconf.json", testconf := tc,
          stderr := [], closed := true }
      else
        { outcome := .returned true, testconf := tc, stderr := [], closed := true }

/-! ## The topic message counter -/

/-- A Go `error` value: a Kafka error with its librdkafka code, or any other error. -/
inductive GoError where
  | kafka (code : Int)
  | other (msg : String)
deriving DecidableEq, Repr

/-- Modelled from the spec: the constant `RD_KAFKA_RESP_ERR__UNKNOWN_TOPIC` of
`librdkafka/rdkafka.h`, which the source includes but does not contain; it is the
code of the "unknown topic" error (`-188` in librdkafka; no proof depends on the
value). -/
def RD_KAFKA_RESP_ERR__UNKNOWN_TOPIC : Int := -188

/-- Modelled from the spec: `NewKafkaError`, declared in another file of the
package; it makes the Kafka error of a librdkafka code. -/
def NewKafkaError (code : Int) : GoError := .kafka code

/-- The type `ConfigMap`: configuration properties. -/
abbrev ConfigMap := List (String × String)

/-- A handle on a created consumer. -/
structure Consumer where
  handle : Nat
deriving DecidableEq, Repr

/-- The field of `PartitionMetadata` the counter reads. -/
structure PartitionMetadata where
  Id : Int
deriving DecidableEq, Repr

/-- The field of `TopicMetadata` the counter reads. -/
structure TopicMetadata where
  Partitions : List PartitionMetadata
deriving DecidableEq, Repr

/-- The field of `Metadata` the counter reads: the map `Topics`, as the list of
its entries. -/
structure Metadata where
  Topics : List (String × TopicMetadata)
deriving DecidableEq, Repr

/-- A call made to the client library. -/
inductive Call where
  | NewConsumer (conf : ConfigMap)
  | GetMetadata (c : Consumer) (topic : String) (allTopics : Bool) (timeoutMs : Int)
  | QueryWatermarkOffsets (c : Consumer) (topic : String) (partition : Int) (timeoutMs : Int)
  | Close (c : Consumer)
deriving DecidableEq, Repr

/-- The client library and the brokers behind it, as the counter sees them:
what each operation answers.  The first argument of `QueryWatermarkOffsets` is the
number of watermark queries made before this one, so that two queries may be
answered differently; it answers `(low, high)` or an error. -/
structure Library where
  NewConsumer : ConfigMap → Except GoError Consumer
  GetMetadata : Consumer → String → Bool → Int → Except GoError Metadata
  QueryWatermarkOffsets : Nat → Consumer → String → Int → Int → Except GoError (Int × Int)

/-- What a call of `get_message_count_in_topic` gives: the two returned values
and the calls it made to the library, in order. -/
structure CountRun where
  count : Int
  err : Option GoError
  trace : List Call
deriving DecidableEq, Repr

/-- The loop `for _, p := range t.Partitions` of `get_message_count_in_topic`:
`k` queries were made before, `cnt` is the running count, `tr` the trace so far. -/
def count_partitions (lib : Library) (c : Consumer) (topic : String) :
    List PartitionMetadata → Nat → Int → List Call → Int × List Call
  | [], _, cnt, tr => (cnt, tr)
  | p :: ps, k, cnt, tr =>
    let tr1 := tr ++ [Call.QueryWatermarkOffsets c topic p.Id (5 * 1000)]
    match lib.QueryWatermarkOffsets k c topic p.Id (5 * 1000) with
    | .error _ => count_partitions lib c topic ps (k + 1) cnt tr1
    | .ok (low, high) =>
      count_partitions lib c topic ps (k + 1) (wrap64 (cnt + wrap64 (high - low))) tr1

/-- Return the number of messages available in all partitions of a topic.
WARNING: This uses watermark offsets so it will be incorrect for compacted topics. -/
def get_message_count_in_topic (lib : Library) (testconf : TestConf) (topic : String) :
    CountRun :=
  let conf : ConfigMap := [("bootstrap.servers", testconf.Brokers)]
  match lib.NewConsumer conf with
  | .error err => { count := 0, err := some err, trace := [Call.NewConsumer conf] }
  | .ok c =>
    let tr := [Call.NewConsumer conf, Call.GetMetadata c topic false (5 * 1000)]
    match lib.GetMetadata c topic false (5 * 1000) with
    | .error err => { count := 0, err := some err, trace := tr }
    | .ok metadata =>
      match metadata.Topics.lookup topic with
      | none =>
        { count := 0, err := some (NewKafkaError RD_KAFKA_RESP_ERR__UNKNOWN_TOPIC), trace := tr }
      | some t =>
        let r := count_partitions lib c topic t.Partitions 0 0 tr
        { count := r.1, err := none, trace := r.2 }

/-- The answers to the watermark queries of one call, in the order of the
partitions, the first of them being query number `k`. -/
def watermark_outcomes (lib : Library) (c : Consumer) (topic : String) :
    List PartitionMetadata → Nat → List (Except GoError (Int × Int))
  | [], _ => []
  | p :: ps, k =>
    lib.QueryWatermarkOffsets k c topic p.Id (5 * 1000) :: watermark_outcomes lib c topic ps (k + 1)

/-- The sum of `high - low` over the queries that succeeded, in exact
integers: the count as the specification words it. -/
def sum_succeeded : List (Except GoError (Int × Int)) → Int
  | [] => 0
  | .error _ :: rest => sum_succeeded rest
  | .ok (low, high) :: rest => (high - low) + sum_succeeded rest

/-- Whether a call is a watermark query. -/
def Call.isQuery : Call → Bool
  | .QueryWatermarkOffsets _ _ _ _ => true
  | _ => false

/-- Whether a call closes a consumer. -/
def Call.isClose : Call → Bool
  | .Close _ => true
  | _ => false

/-! ## Concrete inputs -/

/-- A world whose clock stands still at `0`. -/
def world_still : World := { clock := fun _ => 0, reads := 0, stdout := [] }

/-- A world whose clock advances by one second at every reading. -/
def world_ticking : World := { clock := fun n => (n : Int) * 1000000000, reads := 0, stdout := [] }

/-- A displayer as `ratedisp_start "x"` makes it when the clock reads `0`. -/
def rd_fresh : ratedisp := { name := "x", start := 0, last_print := 0, cnt := 0, size := 0 }

/-- A displayer whose counters hold the largest `int64`. -/
def rd_full : ratedisp :=
  { name := "x", start := 0, last_print := 0, cnt := 9223372036854775807,
    size := 9223372036854775807 }

/-- A configuration naming one broker and one topic. -/
def conf_demo : TestConf := { Brokers := "localhost:9092", Topic := "test" }

/-- The value an earlier successful load of a file naming the broker `old:1`
and the topic `oldtopic` leaves in `testconf`. -/
def conf_stale : TestConf := { Brokers := "old:1", Topic := "oldtopic" }

/-- A library that creates the consumer, knows the topics `topics`, and answers the
`k`-th watermark query with the `k`-th element of `answers` (an error past its end). -/
def lib_of (topics : List (String × TopicMetadata))
    (answers : List (Except GoError (Int × Int))) : Library :=
  { NewConsumer := fun _ => .ok { handle := 1 },
    GetMetadata := fun _ _ _ _ => .ok { Topics := topics },
    QueryWatermarkOffsets := fun k _ _ _ _ => answers.getD k (.error (.other "timed out")) }

/-- A library that cannot create a consumer. -/
def lib_no_consumer : Library :=
  { NewConsumer := fun _ => .error (.other "no broker"),
    GetMetadata := fun _ _ _ _ => .ok { Topics := [] },
    QueryWatermarkOffsets := fun _ _ _ _ _ => .ok (0, 0) }

/-- A library that creates the consumer and cannot fetch metadata. -/
def lib_no_metadata : Library :=
  { NewConsumer := fun _ => .ok { handle := 1 },
    GetMetadata := fun _ _ _ _ => .error (.other "timed out"),
    QueryWatermarkOffsets := fun _ _ _ _ _ => .ok (0, 0) }

/-- A topic with the two partitions `0` and `1`. -/
def two_partitions : TopicMetadata := { Partitions := [{ Id := 0 }, { Id := 1 }] }

/-! ## Lemmas on machine integers -/

theorem wrap64_of_range (x : Int) (h1 : minInt64 ≤ x) (h2 : x ≤ maxInt64) : wrap64 x = x := by
  unfold wrap64
  unfold minInt64 at h1
  unfold maxInt64 at h2
  rw [Int.emod_eq_of_lt (by omega) (by omega)]
  omega

theorem wrap64_add_left (a b : Int) : wrap64 (wrap64 a + b) = wrap64 (a + b) := by
  unfold wrap64
  omega

theorem wrap64_add_right (a b : Int) : wrap64 (a + wrap64 b) = wrap64 (a + b) := by
  unfold wrap64
  omega

theorem wrap64_idem (x : Int) : wrap64 (wrap64 x) = wrap64 x := by
  unfold wrap64
  omega

theorem wrap64_range (x : Int) : minInt64 ≤ wrap64 x ∧ wrap64 x ≤ maxInt64 := by
  unfold wrap64 minInt64 maxInt64
  omega

/-! ## Lemmas on the rate displayer -/

theorem tick_cnt (rd : ratedisp) (c s : Int) (w : World) :
    (rd.tick c s w).1.cnt = wrap64 (rd.cnt + c) := by
  unfold ratedisp.tick
  dsimp only
  split <;> rfl

theorem tick_size (rd : ratedisp) (c s : Int) (w : World) :
    (rd.tick c s w).1.size = wrap64 (rd.size + s) := by
  unfold ratedisp.tick
  dsimp only
  split <;> rfl

theorem run_ticks_cnt (calls : List (Int × Int)) (rd : ratedisp) (w : World)
    (h : wrap64 rd.cnt = rd.cnt) :
    (run_ticks calls rd w).1.cnt = wrap64 (rd.cnt + (calls.map Prod.fst).sum) := by
  induction calls generalizing rd w with
  | nil => simp [run_ticks, h]
  | cons a rest ih =>
    obtain ⟨c, s⟩ := a
    simp only [run_ticks, List.map_cons, List.sum_cons]
    rw [ih _ _ (by rw [tick_cnt, wrap64_idem])]
    rw [tick_cnt, wrap64_add_left, add_assoc]

theorem run_ticks_size (calls : List (Int × Int)) (rd : ratedisp) (w : World)
    (h : wrap64 rd.size = rd.size) :
    (run_ticks calls rd w).1.size = wrap64 (rd.size + (calls.map Prod.snd).sum) := by
  induction calls generalizing rd w with
  | nil => simp [run_ticks, h]
  | cons a rest ih =>
    obtain ⟨c, s⟩ := a
    simp only [run_ticks, List.map_cons, List.sum_cons]
    rw [ih _ _ (by rw [tick_size, wrap64_idem])]
    rw [tick_size, wrap64_add_left, add_assoc]

/-! ## Lemmas on time -/

theorem Sub_pos_iff (t u : Int) : 0 < Time.Sub t u ↔ u < t := by
  unfold Time.Sub minInt64 maxInt64
  split_ifs <;> omega

theorem Second_le_Sub_iff (t u : Int) : Second ≤ Time.Sub t u ↔ Second ≤ t - u := by
  unfold Time.Sub minInt64 maxInt64 Second
  split_ifs <;> omega

theorem print_stdout (rd : ratedisp) (pfx : String) (w : World) :
    (rd.print pfx w).stdout = w.stdout ++
      [{ name := rd.name, pfx := pfx, cnt := rd.cnt,
         elapsed := Time.Sub (w.clock w.reads) rd.start, size := rd.size }] := by
  simp [ratedisp.print, time_Since, time_Now]

/-! ## Lemmas on the topic counter -/

theorem count_partitions_eq (lib : Library) (c : Consumer) (topic : String)
    (ps : List PartitionMetadata) (k : Nat) (cnt : Int) (tr : List Call)
    (h : wrap64 cnt = cnt) :
    count_partitions lib c topic ps k cnt tr
      = (wrap64 (cnt + sum_succeeded (watermark_outcomes lib c topic ps k)),
         tr ++ ps.map (fun p => Call.QueryWatermarkOffsets c topic p.Id (5 * 1000))) := by
  induction ps generalizing k cnt tr with
  | nil => simp [count_partitions, watermark_outcomes, sum_succeeded, h]
  | cons p ps ih =>
    unfold count_partitions watermark_outcomes
    cases hq : lib.QueryWatermarkOffsets k c topic p.Id (5 * 1000) with
    | error e =>
      simp only [sum_succeeded]
      rw [ih _ _ _ h]
      simp
    | ok lh =>
      obtain ⟨low, high⟩ := lh
      simp only [sum_succeeded]
      rw [ih _ _ _ (wrap64_idem _)]
      refine Prod.ext ?_ (by simp)
      show wrap64 (wrap64 (cnt + wrap64 (high - low)) + _) = wrap64 (cnt + (high - low + _))
      rw [wrap64_add_left, add_assoc, add_comm (wrap64 (high - low)), ← add_assoc,
        wrap64_add_right]
      congr 1
      ring

theorem run_of_found (lib : Library) (tc : TestConf) (topic : String) (c : Consumer)
    (md : Metadata) (t : TopicMetadata)
    (hc : lib.NewConsumer [("bootstrap.servers", tc.Brokers)] = .ok c)
    (hm : lib.GetMetadata c topic false (5 * 1000) = .ok md)
    (ht : md.Topics.lookup topic = some t) :
    get_message_count_in_topic lib tc topic
      = { count := wrap64 (sum_succeeded (watermark_outcomes lib c topic t.Partitions 0)),
          err := none,
          trace := [Call.NewConsumer [("bootstrap.servers", tc.Brokers)],
                    Call.GetMetadata c topic false (5 * 1000)]
                   ++ t.Partitions.map
                        (fun p => Call.QueryWatermarkOffsets c topic p.Id (5 * 1000)) } := by
  unfold get_message_count_in_topic
  simp only [hc, hm, ht]
  rw [count_partitions_eq _ _ _ _ _ _ _ (by simp [wrap64])]
  simp

theorem run_of_no_consumer (lib : Library) (tc : TestConf) (topic : String) (e : GoError)
    (hc : lib.NewConsumer [("bootstrap.servers", tc.Brokers)] = .error e) :
    get_message_count_in_topic lib tc topic
      = { count := 0, err := some e,
          trace := [Call.NewConsumer [("bootstrap.servers", tc.Brokers)]] } := by
  unfold get_message_count_in_topic
  simp only [hc]

theorem run_of_no_metadata (lib : Library) (tc : TestConf) (topic : String) (c : Consumer)
    (e : GoError)
    (hc : lib.NewConsumer [("bootstrap.servers", tc.Brokers)] = .ok c)
    (hm : lib.GetMetadata c topic false (5 * 1000) = .error e) :
    get_message_count_in_topic lib tc topic
      = { count := 0, err := some e,
          trace := [Call.NewConsumer [("bootstrap.servers", tc.Brokers)],
                    Call.GetMetadata c topic false (5 * 1000)] } := by
  unfold get_message_count_in_topic
  simp only [hc, hm]

theorem run_of_unknown (lib : Library) (tc : TestConf) (topic : String) (c : Consumer)
    (md : Metadata)
    (hc : lib.NewConsumer [("bootstrap.servers", tc.Brokers)] = .ok c)
    (hm : lib.GetMetadata c topic false (5 * 1000) = .ok md)
    (ht : md.Topics.lookup topic = none) :
    get_message_count_in_topic lib tc topic
      = { count := 0, err := some (NewKafkaError RD_KAFKA_RESP_ERR__UNKNOWN_TOPIC),
          trace := [Call.NewConsumer [("bootstrap.servers", tc.Brokers)],
                    Call.GetMetadata c topic false (5 * 1000)] } := by
  unfold get_message_count_in_topic
  simp only [hc, hm, ht]

theorem trace_no_close (lib : Library) (tc : TestConf) (topic : String) :
    ∀ call ∈ (get_message_count_in_topic lib tc topic).trace, call.isClose = false := by
  cases hc : lib.NewConsumer [("bootstrap.servers", tc.Brokers)] with
  | error e =>
    rw [run_of_no_consumer lib tc topic e hc]
    intro call hcall
    simp only [List.mem_singleton] at hcall
    subst hcall
    rfl
  | ok c =>
    cases hm : lib.GetMetadata c topic false (5 * 1000) with
    | error e =>
      rw [run_of_no_metadata lib tc topic c e hc hm]
      intro call hcall
      simp only [List.mem_cons, List.mem_singleton, List.not_mem_nil, or_false] at hcall
      rcases hcall with h | h <;> subst h <;> rfl
    | ok md =>
      cases ht : md.Topics.lookup topic with
      | none =>
        rw [run_of_unknown lib tc topic c md hc hm ht]
        intro call hcall
        simp only [List.mem_cons, List.mem_singleton, List.not_mem_nil, or_false] at hcall
        rcases hcall with h | h <;> subst h <;> rfl
      | some t =>
        rw [run_of_found lib tc topic c md t hc hm ht]
        intro call hcall
        simp only [List.mem_append, List.mem_cons, List.mem_map, List.mem_singleton,
          List.not_mem_nil, or_false] at hcall
        rcases hcall with (h | h) | ⟨p, _, h⟩ <;> subst h <;> rfl

/-! ## Theorems -/

/-- C1: on a tracker returned by `ratedisp_start`, after any finite sequence of
`tick` calls with no reset in between, and whatever the clock reads, `cnt` is the
sum of the counts and `size` the sum of the sizes, in `int64` arithmetic; the sum
is exact whenever it fits in `int64`, and `start("x")`, `tick(10, 1000)`,
`tick(5, 500)` gives `cnt = 15`, `size = 1500`. -/
theorem C1_tick_accumulates (name : String) (w : World) (calls : List (Int × Int)) :
    (run_ticks calls (ratedisp_start name w).1 (ratedisp_start name w).2).1.cnt
        = wrap64 (calls.map Prod.fst).sum
    ∧ (run_ticks calls (ratedisp_start name w).1 (ratedisp_start name w).2).1.size
        = wrap64 (calls.map Prod.snd).sum
    ∧ (minInt64 ≤ (calls.map Prod.fst).sum ∧ (calls.map Prod.fst).sum ≤ maxInt64 →
        (run_ticks calls (ratedisp_start name w).1 (ratedisp_start name w).2).1.cnt
          = (calls.map Prod.fst).sum)
    ∧ (minInt64 ≤ (calls.map Prod.snd).sum ∧ (calls.map Prod.snd).sum ≤ maxInt64 →
        (run_ticks calls (ratedisp_start name w).1 (ratedisp_start name w).2).1.size
          = (calls.map Prod.snd).sum)
    ∧ (run_ticks [(10, 1000), (5, 500)] (ratedisp_start "x" w).1 (ratedisp_start "x" w).2).1.cnt
        = 15
    ∧ (run_ticks [(10, 1000), (5, 500)] (ratedisp_start "x" w).1 (ratedisp_start "x" w).2).1.size
        = 1500 := by
  have hc : ∀ (n : String) (l : List (Int × Int)),
      (run_ticks l (ratedisp_start n w).1 (ratedisp_start n w).2).1.cnt
        = wrap64 (l.map Prod.fst).sum := by
    intro n l
    rw [run_ticks_cnt _ _ _ (by simp [ratedisp_start, wrap64])]
    simp [ratedisp_start]
  have hs : ∀ (n : String) (l : List (Int × Int)),
      (run_ticks l (ratedisp_start n w).1 (ratedisp_start n w).2).1.size
        = wrap64 (l.map Prod.snd).sum := by
    intro n l
    rw [run_ticks_size _ _ _ (by simp [ratedisp_start, wrap64])]
    simp [ratedisp_start]
  refine ⟨hc name calls, hs name calls, ?_, ?_, ?_, ?_⟩
  · intro h
    rw [hc, wrap64_of_range _ h.1 h.2]
  · intro h
    rw [hs, wrap64_of_range _ h.1 h.2]
  · rw [hc]
    simp [wrap64]
  · rw [hs]
    simp [wrap64]

/-- Witness of C1: `start("x")`, `tick(10, 1000)`, `tick(5, 500)` on a clock
that stands still; the sum of the counts fits in `int64` and `cnt` is that sum. -/
theorem C1_tick_accumulates_witness :
    (minInt64 ≤ (([(10, 1000), (5, 500)] : List (Int × Int)).map Prod.fst).sum
      ∧ (([(10, 1000), (5, 500)] : List (Int × Int)).map Prod.fst).sum ≤ maxInt64)
    ∧ (run_ticks [(10, 1000), (5, 500)] (ratedisp_start "x" world_still).1
        (ratedisp_start "x" world_still).2).1.cnt
        = (([(10, 1000), (5, 500)] : List (Int × Int)).map Prod.fst).sum :=
  ⟨by decide, (C1_tick_accumulates "x" world_still [(10, 1000), (5, 500)]).2.2.1 (by decide)⟩

/-- C5: `reset` leaves `cnt = 0`, `size = 0` and `start` at the clock reading
it took, and leaves `name` and `last_print` as they were. -/
theorem C5_reset_frame (rd : ratedisp) (w : World) :
    (rd.reset w).1.cnt = 0
    ∧ (rd.reset w).1.size = 0
    ∧ (rd.reset w).1.start = w.clock w.reads
    ∧ (rd.reset w).1.name = rd.name
    ∧ (rd.reset w).1.last_print = rd.last_print := by
  simp [ratedisp.reset, time_Now]

/-- C2: when the client is created, the metadata is fetched and the topic is
in it, `get_message_count_in_topic` returns no error and a count equal to the sum
of `high - low` over exactly the partitions whose watermark query succeeded (in
Go's `int` arithmetic, the exact sum whenever it fits), a failed partition
contributing nothing; answers `[(0, 10), (5, 5)]` give 10, and when one of two
partitions fails the count is the other partition's `high - low`. -/
theorem C2_count_is_sum (lib : Library) (tc : TestConf) (topic : String) (c : Consumer)
    (md : Metadata) (t : TopicMetadata)
    (hc : lib.NewConsumer [("bootstrap.servers", tc.Brokers)] = .ok c)
    (hm : lib.GetMetadata c topic false (5 * 1000) = .ok md)
    (ht : md.Topics.lookup topic = some t) :
    (get_message_count_in_topic lib tc topic).err = none
    ∧ (get_message_count_in_topic lib tc topic).count
        = wrap64 (sum_succeeded (watermark_outcomes lib c topic t.Partitions 0))
    ∧ (minInt64 ≤ sum_succeeded (watermark_outcomes lib c topic t.Partitions 0)
        ∧ sum_succeeded (watermark_outcomes lib c topic t.Partitions 0) ≤ maxInt64 →
        (get_message_count_in_topic lib tc topic).count
          = sum_succeeded (watermark_outcomes lib c topic t.Partitions 0))
    ∧ (watermark_outcomes lib c topic t.Partitions 0 = [.ok (0, 10), .ok (5, 5)] →
        (get_message_count_in_topic lib tc topic).count = 10)
    ∧ (∀ (low high : Int) (e : GoError), minInt64 ≤ high - low → high - low ≤ maxInt64 →
        (watermark_outcomes lib c topic t.Partitions 0 = [.ok (low, high), .error e]
          ∨ watermark_outcomes lib c topic t.Partitions 0 = [.error e, .ok (low, high)]) →
        (get_message_count_in_topic lib tc topic).count = high - low) := by
  rw [run_of_found lib tc topic c md t hc hm ht]
  refine ⟨rfl, rfl, ?_, ?_, ?_⟩
  · intro h
    exact wrap64_of_range _ h.1 h.2
  · intro h
    simp [h, sum_succeeded, wrap64]
  · intro low high e h1 h2 h
    rcases h with h | h <;> simp only [h, sum_succeeded, add_zero] <;>
      exact wrap64_of_range _ h1 h2

/-- Witness of C2: two partitions answering `(0, 10)` and `(5, 5)` count 10;
two partitions of which the second fails count the first one's `10 - 3`. -/
theorem C2_count_is_sum_witness :
    (lib_of [("test", two_partitions)] [.ok (0, 10), .ok (5, 5)]).NewConsumer
        [("bootstrap.servers", conf_demo.Brokers)] = .ok { handle := 1 }
    ∧ (get_message_count_in_topic (lib_of [("test", two_partitions)] [.ok (0, 10), .ok (5, 5)])
        conf_demo "test").err = none
    ∧ (get_message_count_in_topic (lib_of [("test", two_partitions)] [.ok (0, 10), .ok (5, 5)])
        conf_demo "test").count = 10
    ∧ (get_message_count_in_topic
        (lib_of [("test", two_partitions)] [.ok (3, 10), .error (.other "timed out")])
        conf_demo "test").count = 10 - 3 :=
  ⟨rfl,
   (C2_count_is_sum (lib_of [("test", two_partitions)] [.ok (0, 10), .ok (5, 5)]) conf_demo
      "test" { handle := 1 } { Topics := [("test", two_partitions)] } two_partitions
      rfl rfl rfl).1,
   (C2_count_is_sum (lib_of [("test", two_partitions)] [.ok (0, 10), .ok (5, 5)]) conf_demo
      "test" { handle := 1 } { Topics := [("test", two_partitions)] } two_partitions
      rfl rfl rfl).2.2.2.1 rfl,
   (C2_count_is_sum
      (lib_of [("test", two_partitions)] [.ok (3, 10), .error (.other "timed out")]) conf_demo
      "test" { handle := 1 } { Topics := [("test", two_partitions)] } two_partitions
      rfl rfl rfl).2.2.2.2 3 10 (.other "timed out") (by decide) (by decide) (Or.inl rfl)⟩

/-- C3: when the client is created, the metadata is fetched and its `Topics`
map does not contain the topic, `get_message_count_in_topic` returns count 0 with
the unknown-topic error and issues no watermark query. -/
theorem C3_unknown_topic (lib : Library) (tc : TestConf) (topic : String) (c : Consumer)
    (md : Metadata)
    (hc : lib.NewConsumer [("bootstrap.servers", tc.Brokers)] = .ok c)
    (hm : lib.GetMetadata c topic false (5 * 1000) = .ok md)
    (ht : md.Topics.lookup topic = none) :
    (get_message_count_in_topic lib tc topic).count = 0
    ∧ (get_message_count_in_topic lib tc topic).err
        = some (NewKafkaError RD_KAFKA_RESP_ERR__UNKNOWN_TOPIC)
    ∧ (∀ call ∈ (get_message_count_in_topic lib tc topic).trace, call.isQuery = false)
    ∧ (get_message_count_in_topic lib tc topic).trace
        = [Call.NewConsumer [("bootstrap.servers", tc.Brokers)],
           Call.GetMetadata c topic false (5 * 1000)] := by
  rw [run_of_unknown lib tc topic c md hc hm ht]
  refine ⟨rfl, rfl, ?_, rfl⟩
  intro call hcall
  simp only [List.mem_cons, List.mem_singleton, List.not_mem_nil, or_false] at hcall
  rcases hcall with h | h <;> subst h <;> rfl

/-- Witness of C3: the metadata knows only the topic `test`, the topic asked
for is `other`. -/
theorem C3_unknown_topic_witness :
    List.lookup "other" [("test", two_partitions)] = none
    ∧ (get_message_count_in_topic (lib_of [("test", two_partitions)] [.ok (0, 10), .ok (5, 5)])
        conf_demo "other").count = 0
    ∧ (get_message_count_in_topic (lib_of [("test", two_partitions)] [.ok (0, 10), .ok (5, 5)])
        conf_demo "other").err
        = some (NewKafkaError RD_KAFKA_RESP_ERR__UNKNOWN_TOPIC) :=
  ⟨by decide,
   (C3_unknown_topic (lib_of [("test", two_partitions)] [.ok (0, 10), .ok (5, 5)]) conf_demo
      "other" { handle := 1 } { Topics := [("test", two_partitions)] } rfl rfl (by decide)).1,
   (C3_unknown_topic (lib_of [("test", two_partitions)] [.ok (0, 10), .ok (5, 5)]) conf_demo
      "other" { handle := 1 } { Topics := [("test", two_partitions)] } rfl rfl (by decide)).2.1⟩

/-- C4: if creating the client fails with `e`, or it succeeds and fetching the
metadata fails with `e`, `get_message_count_in_topic` returns count 0 and exactly
`e`, having called each of the two operations at most once and issued no watermark
query; and whenever a watermark query was issued, whatever it and the others
answered, the call returns no error. -/
theorem C4_dependency_errors (lib : Library) (tc : TestConf) (topic : String) :
    (∀ e, lib.NewConsumer [("bootstrap.servers", tc.Brokers)] = .error e →
      get_message_count_in_topic lib tc topic
        = { count := 0, err := some e,
            trace := [Call.NewConsumer [("bootstrap.servers", tc.Brokers)]] })
    ∧ (∀ c e, lib.NewConsumer [("bootstrap.servers", tc.Brokers)] = .ok c →
        lib.GetMetadata c topic false (5 * 1000) = .error e →
        get_message_count_in_topic lib tc topic
          = { count := 0, err := some e,
              trace := [Call.NewConsumer [("bootstrap.servers", tc.Brokers)],
                        Call.GetMetadata c topic false (5 * 1000)] })
    ∧ (∀ c md t, lib.NewConsumer [("bootstrap.servers", tc.Brokers)] = .ok c →
        lib.GetMetadata c topic false (5 * 1000) = .ok md →
        md.Topics.lookup topic = some t →
        (get_message_count_in_topic lib tc topic).err = none)
    ∧ ((∃ call ∈ (get_message_count_in_topic lib tc topic).trace, call.isQuery = true) →
        (get_message_count_in_topic lib tc topic).err = none) := by
  refine ⟨fun e hc => run_of_no_consumer lib tc topic e hc,
    fun c e hc hm => run_of_no_metadata lib tc topic c e hc hm,
    fun c md t hc hm ht => by rw [run_of_found lib tc topic c md t hc hm ht], ?_⟩
  rintro ⟨call, hcall, hq⟩
  cases hc : lib.NewConsumer [("bootstrap.servers", tc.Brokers)] with
  | error e =>
    rw [run_of_no_consumer lib tc topic e hc] at hcall
    simp only [List.mem_singleton] at hcall
    subst hcall
    simp [Call.isQuery] at hq
  | ok c =>
    cases hm : lib.GetMetadata c topic false (5 * 1000) with
    | error e =>
      rw [run_of_no_metadata lib tc topic c e hc hm] at hcall
      simp only [List.mem_cons, List.mem_singleton, List.not_mem_nil, or_false] at hcall
      rcases hcall with h | h <;> subst h <;> simp [Call.isQuery] at hq
    | ok md =>
      cases ht : md.Topics.lookup topic with
      | none =>
        rw [run_of_unknown lib tc topic c md hc hm ht] at hcall
        simp only [List.mem_cons, List.mem_singleton, List.not_mem_nil, or_false] at hcall
        rcases hcall with h | h <;> subst h <;> simp [Call.isQuery] at hq
      | some t => rw [run_of_found lib tc topic c md t hc hm ht]

/-- Witness of C4: a library that cannot create the consumer, one that cannot
fetch the metadata, and one whose two watermark queries both fail. -/
theorem C4_dependency_errors_witness :
    get_message_count_in_topic lib_no_consumer conf_demo "test"
      = { count := 0, err := some (.other "no broker"),
          trace := [Call.NewConsumer [("bootstrap.servers", "localhost:9092")]] }
    ∧ get_message_count_in_topic lib_no_metadata conf_demo "test"
      = { count := 0, err := some (.other "timed out"),
          trace := [Call.NewConsumer [("bootstrap.servers", "localhost:9092")],
                    Call.GetMetadata { handle := 1 } "test" false (5 * 1000)] }
    ∧ (get_message_count_in_topic (lib_of [("test", two_partitions)] []) conf_demo "test").err
      = none :=
  ⟨(C4_dependency_errors lib_no_consumer conf_demo "test").1 (.other "no broker") rfl,
   (C4_dependency_errors lib_no_metadata conf_demo "test").2.1 { handle := 1 }
      (.other "timed out") rfl rfl,
   (C4_dependency_errors (lib_of [("test", two_partitions)] []) conf_demo "test").2.2.1
      { handle := 1 } { Topics := [("test", two_partitions)] } two_partitions rfl rfl rfl⟩

/-- The outcomes of `testconf_read` for every state of the file and every
value `prev` of `testconf` before the call: it returns false exactly when the file
cannot be opened; a file that decodes without error to a non-empty `Brokers` and
a non-empty `Topic` makes it return true with exactly these two in `testconf`; it
panics when the file fails to decode, when a field is set to the empty string, and
when a field is not set while `prev` holds the empty string for it; and it returns
true whenever the decoding succeeds and both fields of the variable end up
non-empty, be it from the file or from `prev`. -/
theorem testconf_read_outcome (file : ConfFile) (prev : TestConf) :
    ((testconf_read file prev).outcome = .returned false ↔ ∃ e, file = .unopenable e)
    ∧ (∀ e, file = .unopenable e → (testconf_read file prev).testconf = prev)
    ∧ (∀ b t, b ≠ "" → t ≠ "" →
        file = .openable { Brokers := some b, Topic := some t, err := none } →
        (testconf_read file prev).outcome = .returned true
        ∧ (testconf_read file prev).testconf = { Brokers := b, Topic := t })
    ∧ (∀ d, file = .openable d →
        (d.err ≠ none ∨ d.Brokers = some "" ∨ d.Topic = some ""
          ∨ (d.Brokers = none ∧ prev.Brokers = "") ∨ (d.Topic = none ∧ prev.Topic = "")) →
        ∃ msg, (testconf_read file prev).outcome = .panicked msg)
    ∧ (∀ d, file = .openable d → d.err = none →
        d.Brokers.getD prev.Brokers ≠ "" → d.Topic.getD prev.Topic ≠ "" →
        (testconf_read file prev).outcome = .returned true
        ∧ (testconf_read file prev).testconf
            = { Brokers := d.Brokers.getD prev.Brokers, Topic := d.Topic.getD prev.Topic }) := by
  refine ⟨?_, ?_, ?_, ?_, ?_⟩
  · cases file with
    | unopenable e => simp [testconf_read]
    | openable d =>
      obtain ⟨b, t, err⟩ := d
      cases err with
      | some e => simp [testconf_read]
      | none =>
        simp only [testconf_read]
        split_ifs <;> simp
  · intro e hfile
    subst hfile
    rfl
  · intro b t hb ht hfile
    subst hfile
    simp only [testconf_read, Option.getD]
    rw [if_neg (by simp [hb, ht])]
    exact ⟨rfl, rfl⟩
  · intro d hfile h
    subst hfile
    obtain ⟨b, t, err⟩ := d
    cases err with
    | some e => exact ⟨_, rfl⟩
    | none =>
      refine ⟨"Missing Brokers and Topic in testconf.json", ?_⟩
      simp only [testconf_read]
      rw [if_pos]
      rcases h with h | h | h | ⟨h1, h2⟩ | ⟨h1, h2⟩
      · exact absurd rfl h
      · simp only at h
        simp [h]
      · simp only at h
        simp [h]
      · simp only at h1
        simp [h1, h2]
      · simp only at h1
        simp [h1, h2]
  · intro d hfile herr hb ht
    subst hfile
    obtain ⟨b, t, err⟩ := d
    simp only at herr hb ht
    subst herr
    simp only [testconf_read]
    rw [if_neg (by simp [hb, ht])]
    exact ⟨rfl, rfl⟩

/-- C6 does not hold of the code when `testconf` is not empty before the call.
With `testconf` holding `old:1` and `oldtopic` from an earlier load, a file that
decodes without error and sets neither field, and a file that sets `Brokers` and
misses `Topic`, both make `testconf_read` return true, `testconf` keeping the old
value of every field the file does not set; the same two files make it panic when
`testconf` holds its zero value. -/
theorem C6_stale_testconf_returns_true :
    testconf_read (.openable { Brokers := none, Topic := none, err := none }) conf_stale
      = { outcome := .returned true, testconf := { Brokers := "old:1", Topic := "oldtopic" },
          stderr := [], closed := true }
    ∧ testconf_read
        (.openable { Brokers := some "localhost:9092", Topic := none, err := none }) conf_stale
      = { outcome := .returned true,
          testconf := { Brokers := "localhost:9092", Topic := "oldtopic" },
          stderr := [], closed := true }
    ∧ (testconf_read (.openable { Brokers := none, Topic := none, err := none })
        testconf_zero).outcome = .panicked "Missing Brokers and Topic in testconf.json"
    ∧ (testconf_read
        (.openable { Brokers := some "localhost:9092", Topic := none, err := none })
        testconf_zero).outcome = .panicked "Missing Brokers and Topic in testconf.json" := by
  decide

/-- C7 (as amended): for a tracker whose counters are `int64` values and a call
`tick(count, size)` with `count >= 0` and `size >= 0` whose additions do not exceed
the largest `int64`, `cnt` and `size` after the call are at least what they were
before it. -/
theorem C7_tick_monotone (rd : ratedisp) (count size : Int) (w : World)
    (hcnt : minInt64 ≤ rd.cnt) (hsize : minInt64 ≤ rd.size)
    (hc : 0 ≤ count) (hs : 0 ≤ size)
    (hco : rd.cnt + count ≤ maxInt64) (hso : rd.size + size ≤ maxInt64) :
    rd.cnt ≤ (rd.tick count size w).1.cnt ∧ rd.size ≤ (rd.tick count size w).1.size := by
  rw [tick_cnt, tick_size, wrap64_of_range _ (by omega) hco, wrap64_of_range _ (by omega) hso]
  constructor <;> omega

/-- Witness of C7 (as amended): `tick(10, 1000)` on a fresh tracker. -/
theorem C7_tick_monotone_witness :
    rd_fresh.cnt ≤ (rd_fresh.tick 10 1000 world_still).1.cnt
    ∧ rd_fresh.size ≤ (rd_fresh.tick 10 1000 world_still).1.size :=
  C7_tick_monotone rd_fresh 10 1000 world_still (by decide) (by decide) (by decide) (by decide)
    (by decide) (by decide)

/-- C7 fails as stated: `tick(-1, -1)` on a fresh tracker lowers both counters
to `-1`, and `tick(1, 1)` on counters at the largest `int64` wraps them around to
the smallest. -/
theorem C7_counterexample :
    (rd_fresh.tick (-1) (-1) world_still).1.cnt = -1
    ∧ (rd_fresh.tick (-1) (-1) world_still).1.cnt < rd_fresh.cnt
    ∧ (rd_fresh.tick (-1) (-1) world_still).1.size < rd_fresh.size
    ∧ (rd_full.tick 1 1 world_still).1.cnt = -9223372036854775808
    ∧ (rd_full.tick 1 1 world_still).1.cnt < rd_full.cnt
    ∧ (rd_full.tick 1 1 world_still).1.size < rd_full.size := by
  decide

/-- C8 (as amended): on every exit path of `get_message_count_in_topic` the
call returns without having closed the client: it makes no `Close` call at all. -/
theorem C8_client_never_closed (lib : Library) (tc : TestConf) (topic : String) :
    (∀ call ∈ (get_message_count_in_topic lib tc topic).trace, call.isClose = false)
    ∧ (∀ c, Call.Close c ∉ (get_message_count_in_topic lib tc topic).trace) := by
  refine ⟨trace_no_close lib tc topic, ?_⟩
  intro c hmem
  have h := trace_no_close lib tc topic _ hmem
  simp [Call.isClose] at h

/-- Witness of C8 (as amended): the last call of a normal run over two
partitions is a watermark query, not a `Close`. -/
theorem C8_client_never_closed_witness :
    Call.QueryWatermarkOffsets { handle := 1 } "test" 1 5000 ∈
        (get_message_count_in_topic
          (lib_of [("test", two_partitions)] [.ok (0, 10), .ok (5, 5)]) conf_demo "test").trace
    ∧ (Call.QueryWatermarkOffsets { handle := 1 } "test" 1 5000).isClose = false :=
  ⟨by decide,
   (C8_client_never_closed (lib_of [("test", two_partitions)] [.ok (0, 10), .ok (5, 5)])
      conf_demo "test").1 _ (by decide)⟩

/-- C8 fails as stated: on the normal return, on the unknown-topic return and
on the metadata-error return the client `1` was created and the calls made up to
the return hold no `Close` of it. -/
theorem C8_counterexample :
    ((lib_of [("test", two_partitions)] [.ok (0, 10), .ok (5, 5)]).NewConsumer
        [("bootstrap.servers", conf_demo.Brokers)] = .ok { handle := 1 }
      ∧ get_message_count_in_topic (lib_of [("test", two_partitions)] [.ok (0, 10), .ok (5, 5)])
          conf_demo "test"
        = { count := 10, err := none,
            trace := [Call.NewConsumer [("bootstrap.servers", "localhost:9092")],
                      Call.GetMetadata { handle := 1 } "test" false 5000,
                      Call.QueryWatermarkOffsets { handle := 1 } "test" 0 5000,
                      Call.QueryWatermarkOffsets { handle := 1 } "test" 1 5000] }
      ∧ Call.Close { handle := 1 } ∉
          (get_message_count_in_topic
            (lib_of [("test", two_partitions)] [.ok (0, 10), .ok (5, 5)]) conf_demo "test").trace)
    ∧ Call.Close { handle := 1 } ∉
        (get_message_count_in_topic
          (lib_of [("test", two_partitions)] [.ok (0, 10), .ok (5, 5)]) conf_demo "other").trace
    ∧ (lib_no_metadata.NewConsumer [("bootstrap.servers", conf_demo.Brokers)]
          = .ok { handle := 1 }
      ∧ Call.Close { handle := 1 } ∉
          (get_message_count_in_topic lib_no_metadata conf_demo "test").trace) := by
  refine ⟨⟨rfl, by decide, by decide⟩, by decide, rfl, by decide⟩

/-- C9 (as amended): the elapsed time `print` divides by is the saturated
difference between the clock reading and `start`; it is strictly positive exactly
when the reading is later than `start`, and `print` has no guard: when the reading
equals `start` the elapsed time on the line is zero. -/
theorem C9_print_elapsed (rd : ratedisp) (pfx : String) (w : World) :
    (rd.print pfx w).stdout = w.stdout ++
      [{ name := rd.name, pfx := pfx, cnt := rd.cnt,
         elapsed := Time.Sub (w.clock w.reads) rd.start, size := rd.size }]
    ∧ (0 < Time.Sub (w.clock w.reads) rd.start ↔ rd.start < w.clock w.reads)
    ∧ (w.clock w.reads = rd.start → Time.Sub (w.clock w.reads) rd.start = 0) := by
  refine ⟨print_stdout rd pfx w, Sub_pos_iff _ _, ?_⟩
  intro h
  rw [h]
  simp [Time.Sub, minInt64, maxInt64]

/-- Witness of C9 (as amended): a print on a clock that has not moved since
`start` divides by a zero elapsed time. -/
theorem C9_print_elapsed_witness :
    world_still.clock world_still.reads = rd_fresh.start
    ∧ Time.Sub (world_still.clock world_still.reads) rd_fresh.start = 0 :=
  ⟨rfl, (C9_print_elapsed rd_fresh "" world_still).2.2 rfl⟩

/-- C9 fails as stated: the tracker `ratedisp_start "x"` returns on a clock
reading `0`, printed when the clock again reads `0` (so that `now >= start`),
emits a line whose elapsed time is `0`, not strictly positive. -/
theorem C9_counterexample :
    (ratedisp_start "x" world_still).1 = rd_fresh
    ∧ rd_fresh.start ≤ (ratedisp_start "x" world_still).2.clock
        (ratedisp_start "x" world_still).2.reads
    ∧ (rd_fresh.print "" (ratedisp_start "x" world_still).2).stdout
        = [{ name := "x", pfx := "", cnt := 0, elapsed := 0, size := 0 }]
    ∧ ¬ (∀ l ∈ (rd_fresh.print "" (ratedisp_start "x" world_still).2).stdout, 0 < l.elapsed) := by
  decide

/-- C10: `tick(count, size)` emits exactly one status line, reporting the
counters after the addition, and sets `last_print` to the reading `time.Now` then
returns, if the clock reading it takes is at least one second after `last_print`;
otherwise it emits nothing and leaves `last_print` unchanged; in both cases `name`
and `start` are unchanged. -/
theorem C10_tick_print (rd : ratedisp) (count size : Int) (w : World) :
    (rd.tick count size w).1.name = rd.name
    ∧ (rd.tick count size w).1.start = rd.start
    ∧ (Second ≤ w.clock w.reads - rd.last_print →
        (rd.tick count size w).2.stdout = w.stdout ++
          [{ name := rd.name, pfx := "", cnt := wrap64 (rd.cnt + count),
             elapsed := Time.Sub (w.clock (w.reads + 1)) rd.start,
             size := wrap64 (rd.size + size) }]
        ∧ (rd.tick count size w).1.last_print = w.clock (w.reads + 2))
    ∧ (w.clock w.reads - rd.last_print < Second →
        (rd.tick count size w).2.stdout = w.stdout
        ∧ (rd.tick count size w).1.last_print = rd.last_print) := by
  unfold ratedisp.tick
  dsimp only
  simp only [time_Since, time_Now, Second_le_Sub_iff]
  refine ⟨?_, ?_, ?_, ?_⟩
  · split_ifs <;> rfl
  · split_ifs <;> rfl
  · intro h
    rw [if_pos h]
    simp [ratedisp.print, time_Since, time_Now]
  · intro h
    rw [if_neg (not_le.mpr h)]
    exact ⟨rfl, rfl⟩

/-- Witness of C10: on a clock advancing one second per reading, a tracker with
`last_print = 0` stays silent at the first reading `0`, and prints once it is
handed readings from the one-second mark on. -/
theorem C10_tick_print_witness :
    ((rd_fresh.tick 10 1000 world_still).2.stdout = []
      ∧ (rd_fresh.tick 10 1000 world_still).1.last_print = 0)
    ∧ ((rd_fresh.tick 10 1000 { world_ticking with reads := 1 }).2.stdout
        = [{ name := "x", pfx := "", cnt := 10, elapsed := 2000000000, size := 1000 }]
      ∧ (rd_fresh.tick 10 1000 { world_ticking with reads := 1 }).1.last_print = 3000000000) :=
  ⟨(C10_tick_print rd_fresh 10 1000 world_still).2.2.2 (by decide),
   (C10_tick_print rd_fresh 10 1000 { world_ticking with reads := 1 }).2.2.1 (by decide)⟩

end Kafka
